import Mathlib

/-!
Verification of the RenderMime engine of this repository: the renderer
registry, the mimetype selector, the render facade and the sanitization
gate, following the specification and the behaviour recorded in
`test/src/rendermime/rendermime.spec.ts`. The engine implementation
itself (`src/rendermime`, `lib/renderers`) is not part of the available
sources, so every definition below is modelled from the specification.
-/

namespace RenderMimeSpec

/-- Modelled from the spec: the safety classification of a renderer,
fixed at construction. The constructor `nonSafe` models the class the
source calls `unsafe` (may execute arbitrary code if rendered directly,
never renderable from untrusted data); `safe` carries no injection risk
and `sanitizable` may contain active content but can be rendered after
stripping dangerous constructs. -/
inductive Safety where
  | safe
  | sanitizable
  | nonSafe
deriving DecidableEq

/-- A character-list prefix test used by the sanitizer model. -/
def startsWith : List Char → List Char → Bool
  | [], _ => true
  | _ :: _, [] => false
  | p :: ps, c :: cs => p = c && startsWith ps cs

/-- One pass of the sanitizer model, as a character state machine.
`pending` counts tag characters still to be consumed after a tag match;
`inScript` records whether the scan is inside a script element, whose
body is dropped. On seeing `<script>` the scan enters script mode; on
seeing `</script>` inside script mode it leaves it; outside script mode
characters are copied unchanged. An unclosed script body is dropped to
the end of the input. -/
def stripAux : Nat → Bool → List Char → List Char
  | _, _, [] => []
  | p + 1, ins, _ :: cs => stripAux p ins cs
  | 0, false, c :: cs =>
    if startsWith "<script>".toList (c :: cs) then stripAux 7 true cs
    else c :: stripAux 0 false cs
  | 0, true, c :: cs =>
    if startsWith "</script>".toList (c :: cs) then stripAux 8 false cs
    else stripAux 0 true cs

/-- Modelled from the spec: sanitization removes active elements
(script tags and their bodies) while preserving the surrounding markup
structure unchanged, character by character. -/
def stripScripts (l : List Char) : List Char :=
  stripAux 0 false l

/-- Modelled from the spec: the HTML sanitizer applied by sanitizable
renderers when `trust` is false. -/
def sanitize (s : String) : String :=
  String.mk (stripScripts s.data)

/-- Modelled from the spec: the opaque renderable artifact handed back
to the UI layer. The tests observe which renderer produced the widget
(the element kind) and its rendered content, so the model records the
selected MIME type together with the rendered content. -/
structure Artifact where
  mimetype : String
  content : String
deriving DecidableEq

/-- Modelled from the spec: a Renderer, one per MIME type; declares a
safety classification and turns a typed value into renderable content,
receiving the trust flag so a sanitizable renderer can decide to
sanitize. -/
structure Renderer where
  safety : Safety
  render : String → Bool → String

/-- Modelled from the spec: a bundle, a mapping from MIME-type string
to a representation value, given as an association list. -/
abbrev Bundle := List (String × String)

/-- Association-list lookup used by the registry and by bundles. -/
def alookup {β : Type} : String → List (String × β) → Option β
  | _, [] => none
  | m, p :: ps => if p.1 = m then some p.2 else alookup m ps

/-- Bundle key membership, as a Boolean. -/
def isKey (bundle : Bundle) (m : String) : Bool :=
  bundle.any (fun p => p.1 == m)

/-- Modelled from the spec: the Render Mime Engine state, owning one
Renderer Registry: the precedence order (most preferred first) and the
MIME type to Renderer binding map, kept as an association list. -/
structure RenderMime where
  order : List String
  renderers : List (String × Renderer)

namespace RenderMime

/-- Modelled from the spec: `getRenderer(mimetype)` returns the bound
Renderer or an explicit not-found result, never an exception. -/
def getRenderer (r : RenderMime) (m : String) : Option Renderer :=
  alookup m r.renderers

/-- Modelled from the spec: `mimetypes()` produces the registered MIME
types in current precedence order, a snapshot of the order. -/
def mimetypes (r : RenderMime) : List String :=
  r.order

/-- Replaces or creates the binding for `m` in the registry map. -/
def setBinding (r : RenderMime) (m : String) (ren : Renderer) :
    List (String × Renderer) :=
  (m, ren) :: r.renderers.filter (fun p => p.1 != m)

/-- Modelled from the spec: `addRenderer(mimetype, renderer)` with the
index argument omitted inserts the binding at the highest-precedence
position, index 0. -/
def addRenderer (r : RenderMime) (m : String) (ren : Renderer) :
    RenderMime :=
  { order := m :: r.order.filter (fun x => x != m),
    renderers := r.setBinding m ren }

/-- Inserts an element at a given position of a list. -/
def insertAt {α : Type} : Nat → α → List α → List α
  | 0, x, l => x :: l
  | _ + 1, x, [] => [x]
  | n + 1, x, y :: l => y :: insertAt n x l

/-- Modelled from the spec: `addRenderer(mimetype, renderer, index)`
with an explicit index inserts the binding at that position of the
precedence order. -/
def addRendererAt (r : RenderMime) (m : String) (ren : Renderer)
    (i : Nat) : RenderMime :=
  { order := insertAt i m (r.order.filter (fun x => x != m)),
    renderers := r.setBinding m ren }

/-- Modelled from the spec: `removeRenderer(mimetype)` deletes the
binding and removes the MIME type from the order; a no-op that returns
successfully when the MIME type is not registered. -/
def removeRenderer (r : RenderMime) (m : String) : RenderMime :=
  { order := r.order.filter (fun x => x != m),
    renderers := r.renderers.filter (fun p => p.1 != m) }

/-- Modelled from the spec: a MIME type is admissible when it has a
bound renderer and either the caller trusts the bundle or the renderer
is not classified `unsafe`. -/
def admissible (r : RenderMime) (trusted : Bool) (m : String) : Bool :=
  match r.getRenderer m with
  | none => false
  | some ren => trusted || decide (ren.safety ≠ Safety.nonSafe)

/-- Modelled from the spec: the Mimetype Selector. Iterates the
precedence order front to back and returns the first MIME type that is
a key of the bundle and admissible under the trust policy; none when no
MIME type satisfies both conditions. -/
def preferredMimetype (r : RenderMime) (bundle : Bundle)
    (trusted : Bool) : Option String :=
  r.order.find? (fun m => isKey bundle m && admissible r trusted m)

/-- Modelled from the spec: `render(bundle, trust)`. Runs the selector;
when nothing is selected it returns none, never an exception; otherwise
it resolves the renderer and invokes it on the selected value, passing
the trust flag through. The injector side channel is left out of the
model: the spec leaves its trigger rule an open question. -/
def render (r : RenderMime) (bundle : Bundle) (trusted : Bool) :
    Option Artifact :=
  match r.preferredMimetype bundle trusted with
  | none => none
  | some m =>
    match r.getRenderer m, alookup m bundle with
    | some ren, some v => some ⟨m, ren.render v trusted⟩
    | _, _ => none

end RenderMime

/-- Modelled from the spec: the plain-text renderer, safe, the lowest
precedence catch-all; renders the value as is. -/
def TextRenderer : Renderer :=
  { safety := Safety.safe, render := fun v _ => v }

/-- Modelled from the spec: the HTML renderer, sanitizable; sanitizes
when the bundle is untrusted and passes raw content through when it is
trusted. -/
def HTMLRenderer : Renderer :=
  { safety := Safety.sanitizable, render := fun v trusted => if trusted then v else sanitize v }

/-- Modelled from the spec: the image renderer, safe; the payload is a
text-safe encoded string passed through opaquely. -/
def ImageRenderer : Renderer :=
  { safety := Safety.safe, render := fun v _ => v }

/-- Modelled from the spec: the script renderer, classified `unsafe`
(modelled by `nonSafe`): its only meaningful behaviour is executing
code, so it is never admissible untrusted. -/
def JavascriptRenderer : Renderer :=
  { safety := Safety.nonSafe, render := fun v _ => v }

/-- Modelled from the spec: the JSON renderer, safe. -/
def JSONRenderer : Renderer :=
  { safety := Safety.safe, render := fun v _ => v }

/-- Modelled from the spec: the default Render Mime Engine, whose
precedence order places richer visual types above plain text and
includes a script renderer (`unsafe`), an HTML renderer (sanitizable),
an image renderer (safe), a JSON renderer (safe) and the plain-text
fallback last. The script entry precedes the image entry, as the
specification allows. -/
def defaultRenderMime : RenderMime :=
  { order := ["text/javascript", "text/html", "image/png",
              "application/json", "text/plain"],
    renderers := [("text/javascript", JavascriptRenderer),
                  ("text/html", HTMLRenderer),
                  ("image/png", ImageRenderer),
                  ("application/json", JSONRenderer),
                  ("text/plain", TextRenderer)] }

open RenderMime

/-- If two predicates agree on the members of a list, `find?` agrees. -/
theorem find?_congr_on {α : Type} (p q : α → Bool) (l : List α)
    (h : ∀ a ∈ l, p a = q a) : l.find? p = l.find? q := by
  induction l with
  | nil => rfl
  | cons x xs ih =>
    have hx := h x (List.mem_cons_self x xs)
    cases hq : q x with
    | true =>
      rw [List.find?_cons_of_pos _ (hx.trans hq),
          List.find?_cons_of_pos _ hq]
    | false =>
      rw [List.find?_cons_of_neg _ (by simp [hx, hq]),
          List.find?_cons_of_neg _ (by simp [hq])]
      exact ih (fun a ha => h a (List.mem_cons_of_mem x ha))

/-- C1: for every engine and bundle, `preferredMimetype` with trust
false never returns a MIME type whose bound renderer is classified
`unsafe` (modelled by `nonSafe`). -/
theorem preferredMimetype_untrusted_never_nonSafe
    (r : RenderMime) (bundle : Bundle) (m : String) (ren : Renderer)
    (hm : r.preferredMimetype bundle false = some m)
    (hr : r.getRenderer m = some ren) :
    ren.safety ≠ Safety.nonSafe := by
  unfold RenderMime.preferredMimetype at hm
  have h := List.find?_some hm
  rw [Bool.and_eq_true] at h
  obtain ⟨hk, ha⟩ := h
  unfold RenderMime.admissible at ha
  rw [hr] at ha
  simpa using ha

/-- C1 witness: on the bundle of text/plain, text/javascript and
image/png, untrusted selection returns image/png, whose renderer is
not classified `unsafe`. -/
theorem preferredMimetype_untrusted_never_nonSafe_witness :
    defaultRenderMime.preferredMimetype
      [("text/plain", "foo"), ("text/javascript", "window.x = 1"),
       ("image/png", "R0lGODlhAQABAIAAAAAAAP8")] false = some "image/png" ∧
    ImageRenderer.safety ≠ Safety.nonSafe := by
  constructor
  · rfl
  · exact preferredMimetype_untrusted_never_nonSafe defaultRenderMime
      [("text/plain", "foo"), ("text/javascript", "window.x = 1"),
       ("image/png", "R0lGODlhAQABAIAAAAAAAP8")] "image/png" ImageRenderer rfl rfl

/-- C2: for every engine whose order is in lockstep with the registry
and every bundle, `preferredMimetype` with trust true returns the first
MIME type of the precedence order that is a key of the bundle,
regardless of safety classification. -/
theorem preferredMimetype_trusted_first_key
    (r : RenderMime) (bundle : Bundle)
    (hreg : ∀ m ∈ r.order, (r.getRenderer m).isSome = true) :
    r.preferredMimetype bundle true =
      r.order.find? (fun m => isKey bundle m) := by
  unfold RenderMime.preferredMimetype
  apply find?_congr_on
  intro a ha
  have h := hreg a ha
  cases hg : r.getRenderer a with
  | none => rw [hg] at h; simp at h
  | some ren => simp [RenderMime.admissible, hg]

/-- C2 witness: on the default engine, trusted selection of the bundle
of text/plain and text/html returns text/html, the first key of the
bundle in precedence order. -/
theorem preferredMimetype_trusted_first_key_witness :
    defaultRenderMime.preferredMimetype
      [("text/plain", "foo"), ("text/html", "<h1>foo</h1>")] true =
      some "text/html" :=
  (preferredMimetype_trusted_first_key defaultRenderMime
    [("text/plain", "foo"), ("text/html", "<h1>foo</h1>")]
    (by decide)).trans rfl

/-- C3: rendering the single-entry bundle with text/html value
`<h1>foo <script>x=1</script></h1>` untrusted produces an artifact
whose content is exactly `<h1>foo </h1>`: the script element and its
body are removed and the surrounding markup is preserved unchanged. -/
theorem render_untrusted_sanitizes_html :
    defaultRenderMime.render
      [("text/html", "<h1>foo <script>x=1</script></h1>")] false =
      some { mimetype := "text/html", content := "<h1>foo </h1>" } := rfl

/-- C4: on the bundle of text/plain, text/javascript and image/png,
untrusted selection by both `preferredMimetype` and `render` on the
default engine picks image/png: the `unsafe` javascript entry is
skipped and the next admissible entry of the default order wins. -/
theorem untrusted_selects_png_skipping_script :
    defaultRenderMime.preferredMimetype
      [("text/plain", "foo"), ("text/javascript", "window.x = 1"),
       ("image/png", "R0lGODlhAQABAIAAAAAAAP8")] false = some "image/png" ∧
    (defaultRenderMime.render
      [("text/plain", "foo"), ("text/javascript", "window.x = 1"),
       ("image/png", "R0lGODlhAQABAIAAAAAAAP8")] false).map
        (fun a => a.mimetype) = some "image/png" :=
  ⟨rfl, rfl⟩

/-- C5: on the bundle of text/plain and text/html, the selected MIME
type is text/html for both trust values, via `preferredMimetype` and
via `render`: a sanitizable renderer is admissible untrusted and
outranks plain text, never downgraded or substituted. -/
theorem sanitizable_selected_either_trust :
    (defaultRenderMime.preferredMimetype
      [("text/plain", "foo"), ("text/html", "<h1>foo</h1>")] true =
        some "text/html") ∧
    (defaultRenderMime.preferredMimetype
      [("text/plain", "foo"), ("text/html", "<h1>foo</h1>")] false =
        some "text/html") ∧
    ((defaultRenderMime.render
      [("text/plain", "foo"), ("text/html", "<h1>foo</h1>")] true).map
        (fun a => a.mimetype) = some "text/html") ∧
    ((defaultRenderMime.render
      [("text/plain", "foo"), ("text/html", "<h1>foo</h1>")] false).map
        (fun a => a.mimetype) = some "text/html") :=
  ⟨rfl, rfl, rfl, rfl⟩

/-- C6: for every engine, bundle and trust flag, when no key of the
bundle is both registered and admissible, both `preferredMimetype` and
`render` return none: the no-match outcome is a value, never an
exception. -/
theorem no_admissible_key_returns_none
    (r : RenderMime) (bundle : Bundle) (trusted : Bool)
    (h : ∀ p ∈ bundle, admissible r trusted p.1 = false) :
    r.preferredMimetype bundle trusted = none ∧
    r.render bundle trusted = none := by
  have hp : r.preferredMimetype bundle trusted = none := by
    unfold RenderMime.preferredMimetype
    apply List.find?_eq_none.mpr
    intro x hx
    simp only [Bool.and_eq_true, not_and]
    intro hk
    simp only [isKey, List.any_eq_true, beq_iff_eq] at hk
    obtain ⟨p, hpmem, hpx⟩ := hk
    have := h p hpmem
    rw [hpx] at this
    simp [this]
  refine ⟨hp, ?_⟩
  unfold RenderMime.render
  rw [hp]

/-- C6 witness: the bundle whose only key is the unregistered
text/fizz yields none from both operations on the default engine. -/
theorem no_admissible_key_returns_none_witness :
    defaultRenderMime.preferredMimetype [("text/fizz", "buzz")] false = none ∧
    defaultRenderMime.render [("text/fizz", "buzz")] false = none :=
  no_admissible_key_returns_none defaultRenderMime
    [("text/fizz", "buzz")] false (by decide)

/-- C7: for every engine, renderer and fresh MIME type, `addRenderer`
with the index omitted places the MIME type at precedence index 0, so
`mimetypes` lists it first; supplying index 0 explicitly likewise
places it first, and both grow the order by one entry. -/
theorem addRenderer_inserts_at_front
    (r : RenderMime) (m : String) (ren : Renderer)
    (h : ∀ x ∈ r.order, x ≠ m) :
    (r.addRenderer m ren).mimetypes.head? = some m ∧
    (r.addRendererAt m ren 0).mimetypes.head? = some m ∧
    (r.addRenderer m ren).mimetypes.length = r.mimetypes.length + 1 ∧
    (r.addRendererAt m ren 0).mimetypes.length = r.mimetypes.length + 1 := by
  have hf : r.order.filter (fun x => x != m) = r.order :=
    List.filter_eq_self.mpr (fun a ha => by simpa using h a ha)
  refine ⟨rfl, ?_, ?_, ?_⟩ <;>
    simp [RenderMime.addRendererAt, RenderMime.addRenderer,
      RenderMime.mimetypes, RenderMime.insertAt, hf]

/-- C7 witness: adding a text/foo renderer to the default engine with
no index and with explicit index 0 lists text/foo first and grows the
order from five entries to six. -/
theorem addRenderer_inserts_at_front_witness :
    ((defaultRenderMime.addRenderer "text/foo" TextRenderer).mimetypes.head? =
      some "text/foo") ∧
    ((defaultRenderMime.addRendererAt "text/foo" TextRenderer 0).mimetypes.head? =
      some "text/foo") ∧
    ((defaultRenderMime.addRenderer "text/foo" TextRenderer).mimetypes.length =
      defaultRenderMime.mimetypes.length + 1) ∧
    ((defaultRenderMime.addRendererAt "text/foo" TextRenderer 0).mimetypes.length =
      defaultRenderMime.mimetypes.length + 1) :=
  addRenderer_inserts_at_front defaultRenderMime "text/foo" TextRenderer
    (by decide)

/-- C8: `removeRenderer` unregisters the MIME type, so that afterwards
`preferredMimetype` on a bundle containing only that MIME type returns
none; and on a MIME type that is not registered, `removeRenderer` is a
no-op that returns the engine unchanged, never an exception. -/
theorem removeRenderer_unregisters_and_noop
    (r r2 : RenderMime) (m m2 v : String) (trusted : Bool)
    (h1 : ∀ x ∈ r2.order, x ≠ m2)
    (h2 : ∀ p ∈ r2.renderers, p.1 ≠ m2) :
    (r.removeRenderer m).preferredMimetype [(m, v)] trusted = none ∧
    r2.removeRenderer m2 = r2 := by
  constructor
  · unfold RenderMime.preferredMimetype
    apply List.find?_eq_none.mpr
    intro x hx
    have hxm : x ≠ m := by
      have := (List.mem_filter.mp hx).2
      simpa using this
    simp [isKey, Ne.symm hxm]
  · have ho : r2.order.filter (fun x => x != m2) = r2.order :=
      List.filter_eq_self.mpr (fun a ha => by simpa using h1 a ha)
    have hr : r2.renderers.filter (fun p => p.1 != m2) = r2.renderers :=
      List.filter_eq_self.mpr (fun a ha => by simpa using h2 a ha)
    simp [RenderMime.removeRenderer, ho, hr]

/-- C8 witness: removing text/html from the default engine makes the
text/html-only bundle select nothing, and removing the unregistered
text/foo leaves the default engine unchanged. -/
theorem removeRenderer_unregisters_and_noop_witness :
    ((defaultRenderMime.removeRenderer "text/html").preferredMimetype
      [("text/html", "<h1>foo</h1>")] false = none) ∧
    defaultRenderMime.removeRenderer "text/foo" = defaultRenderMime :=
  removeRenderer_unregisters_and_noop defaultRenderMime defaultRenderMime
    "text/html" "text/foo" "<h1>foo</h1>" false (by decide)
    (by intro p hp; fin_cases hp <;> decide)

/-- Lookup of an engine instance by identifier in a store. -/
def nlookup {β : Type} : Nat → List (Nat × β) → Option β
  | _, [] => none
  | i, p :: ps => if p.1 = i then some p.2 else nlookup i ps

/-- Modelled from the spec: the collection of live Engine instances.
`clone()` produces an independent instance with its own order and map
state, so the model keeps every instance in a store keyed by an
identifier, and `clone` allocates a fresh identifier with a copy of the
cloned state. -/
structure EngineStore where
  engines : List (Nat × RenderMime)

/-- An identifier strictly larger than every identifier in the store. -/
def freshId (s : EngineStore) : Nat :=
  (s.engines.map Prod.fst).foldr max 0 + 1

/-- Modelled from the spec: `clone()` on the instance `i` allocates a
new Engine instance holding the same order and map entries; when `i` is
not a live instance the store is unchanged. -/
def cloneEngine (s : EngineStore) (i : Nat) : EngineStore × Nat :=
  match nlookup i s.engines with
  | none => (s, i)
  | some st => (⟨(freshId s, st) :: s.engines⟩, freshId s)

/-- Modelled from the spec: `addRenderer` invoked on the instance `i`
of the store mutates that instance alone. -/
def addRendererIn (s : EngineStore) (i : Nat) (m : String)
    (ren : Renderer) : EngineStore :=
  ⟨s.engines.map (fun p => if p.1 = i then (p.1, p.2.addRenderer m ren) else p)⟩

/-- Modelled from the spec: `mimetypes()` observed on the instance `i`
of the store. -/
def mimetypesIn (s : EngineStore) (i : Nat) : Option (List String) :=
  (nlookup i s.engines).map RenderMime.mimetypes

theorem le_foldr_max (k : Nat) (l : List Nat) (h : k ∈ l) :
    k ≤ l.foldr max 0 := by
  induction l with
  | nil => cases h
  | cons x xs ih =>
    rcases List.mem_cons.mp h with h1 | h2
    · subst h1; exact Nat.le_max_left k (xs.foldr max 0)
    · exact Nat.le_trans (ih h2) (Nat.le_max_right x (xs.foldr max 0))

theorem nlookup_mem_fst {β : Type} (i : Nat) (l : List (Nat × β))
    (st : β) (h : nlookup i l = some st) : i ∈ l.map Prod.fst := by
  induction l with
  | nil => simp [nlookup] at h
  | cons p ps ih =>
    by_cases hp : p.1 = i
    · simp [hp.symm]
    · rw [nlookup, if_neg hp] at h
      exact List.mem_cons_of_mem _ (ih h)

theorem nlookup_lt_freshId (s : EngineStore) (i : Nat) (st : RenderMime)
    (h : nlookup i s.engines = some st) : i < freshId s :=
  Nat.lt_succ_of_le (le_foldr_max i _ (nlookup_mem_fst i s.engines st h))

theorem nlookup_map_other {β : Type} (i j : Nat) (f : β → β)
    (l : List (Nat × β)) (h : i ≠ j) :
    nlookup i (l.map (fun p => if p.1 = j then (p.1, f p.2) else p)) =
      nlookup i l := by
  induction l with
  | nil => rfl
  | cons p ps ih =>
    obtain ⟨k, b⟩ := p
    by_cases hkj : k = j
    · subst hkj
      have hki : ¬(k = i) := fun hc => h hc.symm
      simp [nlookup, hki, ih]
    · by_cases hki : k = i
      · subst hki
        simp [nlookup, hkj]
      · simp [nlookup, hkj, hki, ih]

/-- C9: for every store and live instance, `clone` yields a distinct
instance whose `mimetypes` output equals the original at clone time,
and calling `addRenderer` on the clone leaves the `mimetypes` output of
the original instance unchanged. -/
theorem clone_independent
    (s : EngineStore) (i : Nat) (st : RenderMime) (m : String)
    (ren : Renderer) (hi : nlookup i s.engines = some st) :
    (cloneEngine s i).2 ≠ i ∧
    mimetypesIn (cloneEngine s i).1 (cloneEngine s i).2 = mimetypesIn s i ∧
    mimetypesIn (addRendererIn (cloneEngine s i).1 (cloneEngine s i).2 m ren) i =
      mimetypesIn s i := by
  have hlt := nlookup_lt_freshId s i st hi
  have hne : freshId s ≠ i := Nat.ne_of_gt hlt
  unfold cloneEngine
  rw [hi]
  refine ⟨hne, ?_, ?_⟩
  · simp [mimetypesIn, nlookup, hi]
  · unfold addRendererIn mimetypesIn
    simp only
    rw [show ((freshId s, st) :: s.engines).map
        (fun p => if p.1 = freshId s then (p.1, p.2.addRenderer m ren) else p) =
        (freshId s, st.addRenderer m ren) ::
          s.engines.map (fun p => if p.1 = freshId s then (p.1, p.2.addRenderer m ren) else p)
      from by simp]
    rw [nlookup, if_neg hne]
    rw [nlookup_map_other i (freshId s) (fun e => e.addRenderer m ren)
      s.engines (Ne.symm hne)]

/-- C9 witness: in a store holding the default engine as instance 0,
cloning it yields a distinct instance with equal `mimetypes` output,
and adding a text/foo renderer to the clone leaves the output of
instance 0 unchanged. -/
theorem clone_independent_witness :
    nlookup 0 (EngineStore.mk [(0, defaultRenderMime)]).engines =
      some defaultRenderMime ∧
    ((cloneEngine ⟨[(0, defaultRenderMime)]⟩ 0).2 ≠ 0 ∧
     mimetypesIn (cloneEngine ⟨[(0, defaultRenderMime)]⟩ 0).1
       (cloneEngine ⟨[(0, defaultRenderMime)]⟩ 0).2 =
       mimetypesIn ⟨[(0, defaultRenderMime)]⟩ 0 ∧
     mimetypesIn (addRendererIn (cloneEngine ⟨[(0, defaultRenderMime)]⟩ 0).1
       (cloneEngine ⟨[(0, defaultRenderMime)]⟩ 0).2 "text/foo" TextRenderer) 0 =
       mimetypesIn ⟨[(0, defaultRenderMime)]⟩ 0) :=
  ⟨rfl, clone_independent ⟨[(0, defaultRenderMime)]⟩ 0 defaultRenderMime
    "text/foo" TextRenderer rfl⟩

end RenderMimeSpec
